import Mathlib

/-!
Shallow embedding of the status-bridge code of this repository:
the Wifi bridge (`WifiManagerState`, `src/unnamed/part_000`) and the
HDCP bridge (`HdcpProfile`, `src/HdcpProfile/HdcpProfile.h`).

External collaborators (the DBus network-configuration client, the
notification sink `WifiManager::getInstance().onWIFIStateChanged`) are
modelled as explicit inputs/outputs: DBus queries become functions of an
environment record, and each operation returns the list of notification
calls it performs.  Machine enums become inductive types; `bool` returns
with out-parameters become `Option`.
-/

namespace WifiManagerImpl

/--
Raw interface status delivered by the external networkconfig DBus service
(`WifiManagerImpl::InterfaceStatus`).  The enum itself is declared in the
DBus client header, outside the provided sources; the seven named values
are exactly those the source file mentions.  The spec treats the raw
vocabulary as external and uncontrolled ("RawStatus — external,
versioned/uncontrolled vocabulary"), and the source defensively handles
values outside the mapping table (`LOGWARN("unknown state: %d", ...)`),
so raw codes beyond the named seven are represented by `otherRaw`.
-/
inductive InterfaceStatus where
  | Disabled
  | Disconnected
  | Associating
  | Dormant
  | Binding
  | Assigned
  | Scanning
  | otherRaw (code : Nat)
deriving DecidableEq, Repr

end WifiManagerImpl

namespace WPEFrameworkPlugin

open WifiManagerImpl

/--
`WifiState`, the logical state enumeration exposed to subscribers.  Its
numeric values are documented by the comment block in the source
(lines 63-70 of `src/unnamed/part_000`):
0 UNINSTALLED, 1 DISABLED, 2 DISCONNECTED, 3 PAIRING, 4 CONNECTING,
5 CONNECTED.
-/
inductive WifiState where
  | UNINSTALLED
  | DISABLED
  | DISCONNECTED
  | PAIRING
  | CONNECTING
  | CONNECTED
deriving DecidableEq, Repr

/-- `static_cast<int>` on `WifiState`, following the documented numbering. -/
def WifiState.toInt : WifiState → Int
  | .UNINSTALLED => 0
  | .DISABLED => 1
  | .DISCONNECTED => 2
  | .PAIRING => 3
  | .CONNECTING => 4
  | .CONNECTED => 5

/--
The anonymous-namespace mapping table `statusToState`
(`src/unnamed/part_000`, lines 71-78), embedded as the association list
of its initializer entries.
-/
def statusToState : List (InterfaceStatus × WifiState) :=
  [(.Disabled, .DISABLED),
   (.Disconnected, .DISCONNECTED),
   (.Associating, .CONNECTING),
   (.Dormant, .DISCONNECTED),
   (.Binding, .CONNECTING),
   (.Assigned, .CONNECTED),
   (.Scanning, .CONNECTING)]

/-- `statusToState.find(s)`: `some` of the mapped state when the key is
in the table, `none` when `find` returns `end()`. -/
def statusToStateFind (s : InterfaceStatus) : Option WifiState :=
  statusToState.lookup s

/--
Response of `getCurrentState` (`src/unnamed/part_000`, lines 81-96).
`success` is the value passed to `returnResponse`; `state` is `some` of
the integer stored in `response["state"]` when that assignment runs, and
`none` when the handler returns without setting the field.
-/
structure StateResponse where
  success : Bool
  state : Option Int
deriving DecidableEq, Repr

/--
`WifiManagerState::getCurrentState`: looks the current snapshot status
up in `statusToState`; on a hit stores the cast state and returns
success, on a miss logs and returns failure.  The handler always returns
a well-formed response (the C++ function returns `Core::ERROR_NONE` on
every path via the `returnResponse` macro).
-/
def getCurrentState (m_wifi_status : InterfaceStatus) : StateResponse :=
  match statusToStateFind m_wifi_status with
  | some st => { success := true, state := some st.toInt }
  | none => { success := false, state := none }

/--
The external `DBusClient` singleton, abstracted to the three synchronous
query primitives the source uses.  A C++ call
`bool f(in, std::string &out)` becomes a function returning
`Option`: `some out` when the call returns `true`, `none` when it
returns `false`.
-/
structure DBusEnv where
  /-- `networkconfig1_GetStatus(iname, status)`. -/
  getStatus : String → Option InterfaceStatus
  /-- `networkconfig1_GetParam(iname, key, value)`. -/
  getParam : String → String → Option String
  /-- `networkconfig1_GetInterfaces(interfaces)`. -/
  getInterfaces : Option (List String)

/--
The `for (auto &intf : interfaces)` loop body of
`WifiManagerState::fetchWifiInterfaceName`: return the current
interface when its type parameter query succeeds with `"wifi"`,
otherwise continue with the rest of the list; fall through to `""`.
-/
def findWifiInterface (env : DBusEnv) : List String → String
  | [] => ""
  | intf :: rest =>
    match env.getParam intf "type" with
    | some t => if t = "wifi" then intf else findWifiInterface env rest
    | none => findWifiInterface env rest

/--
`WifiManagerState::fetchWifiInterfaceName`
(`src/unnamed/part_000`, lines 175-195): list the interfaces, scan them
in order for the first whose `"type"` parameter is `"wifi"`; return
`""` when the listing fails or no interface matches.
-/
def fetchWifiInterfaceName (env : DBusEnv) : String :=
  match env.getInterfaces with
  | some interfaces => findWifiInterface env interfaces
  | none => ""

/--
`WifiManagerState::getWifiInterfaceName`
(`src/unnamed/part_000`, lines 197-203): a function-local
`static std::string name = fetchWifiInterfaceName()` computed under a
mutex.  The static is modelled by explicit cache passing: `cache` is
`none` before the first call and `some name` afterwards.  The result is
`(returned string, cache after the call, whether this call invoked
fetchWifiInterfaceName)`.
-/
def getWifiInterfaceName (env : DBusEnv) (cache : Option String) :
    String × Option String × Bool :=
  match cache with
  | some name => (name, some name, false)
  | none =>
    let name := fetchWifiInterfaceName env
    (name, some name, true)

/--
The Wifi bridge snapshot: the `m_wifi_status` member guarded by
`m_mutex`.  The mutex itself is not modelled; operations on the
snapshot are sequentialized.
-/
structure WifiMgrState where
  m_wifi_status : InterfaceStatus
deriving DecidableEq, Repr

/--
`WifiManagerState::updateWifiStatus`
(`src/unnamed/part_000`, lines 145-161): store the incoming raw status
into the snapshot, look it up in `statusToState`, and on a hit call
`WifiManager::getInstance().onWIFIStateChanged(state, false)` (the
`isLNF` argument is hardcoded `false`).  The second component collects
the `onWIFIStateChanged` invocations this call performs, in order.
-/
def updateWifiStatus (st : WifiMgrState) (status : InterfaceStatus) :
    WifiMgrState × List (WifiState × Bool) :=
  let st1 : WifiMgrState := { st with m_wifi_status := status }
  match statusToStateFind st1.m_wifi_status with
  | some w => (st1, [(w, false)])
  | none => (st1, [])

/--
Feed a sequence of raw statuses through `updateWifiStatus`, starting
from snapshot `st`; returns the final snapshot and the concatenated
notifications.
-/
def feedStatuses (st : WifiMgrState) :
    List InterfaceStatus → WifiMgrState × List (WifiState × Bool)
  | [] => (st, [])
  | s :: rest =>
    let r1 := updateWifiStatus st s
    let r2 := feedStatuses r1.1 rest
    (r2.1, r1.2 ++ r2.2)

/--
`WifiManagerState::statusChanged`
(`src/unnamed/part_000`, lines 137-143): the DBus status-change
callback.  `wifiName` stands for the value of `getWifiInterfaceName()`
(memoized, hence constant at this point); when the event names that
interface the snapshot is updated, otherwise nothing happens.
-/
def statusChanged (wifiName : String) (st : WifiMgrState)
    (interface : String) (status : InterfaceStatus) :
    WifiMgrState × List (WifiState × Bool) :=
  if interface = wifiName then updateWifiStatus st status else (st, [])

/-- Result of `WifiManagerState::Initialize`: the snapshot after the
call, the interface-name cache after the call, the notifications
emitted, whether `registerStatusChanged` ran, and the warnings logged
(messages abridged from the `LOGWARN` format strings). -/
structure InitResult where
  state : WifiMgrState
  cache : Option String
  notifs : List (WifiState × Bool)
  registered : Bool
  warnings : List String
deriving DecidableEq, Repr

/--
`WifiManagerState::Initialize` (`src/unnamed/part_000`, lines 31-55):
if `getWifiInterfaceName()` is empty, log a warning and do nothing
else; otherwise register the status callback, query the current status
of the interface (`getWifiInterfaceName()` again — memoized), and on
success seed the snapshot through `updateWifiStatus`, on failure log a
warning and leave the snapshot untouched.
-/
def Initialize (env : DBusEnv) (st : WifiMgrState) (cache : Option String) :
    InitResult :=
  let r1 := getWifiInterfaceName env cache
  if r1.1 = "" then
    { state := st, cache := r1.2.1, notifs := [], registered := false,
      warnings := ["No wifi interface found"] }
  else
    let r2 := getWifiInterfaceName env r1.2.1
    match env.getStatus r2.1 with
    | some status =>
      let r3 := updateWifiStatus st status
      { state := r3.1, cache := r2.2.1, notifs := r3.2, registered := true,
        warnings := [] }
    | none =>
      { state := st, cache := r2.2.1, notifs := [], registered := true,
        warnings := ["failed to get interface " ++ r2.1 ++ " status"] }

/--
Scan a character list for the first `:` and return the suffix after it,
or `none` when there is no colon.
-/
def splitAfterColonChars : List Char → Option (List Char)
  | [] => none
  | c :: rest => if c = ':' then some rest else splitAfterColonChars rest

/--
`netid.find(":")` followed by `netid.substr(pos + 1)` in
`getConnectedSSID`: `none` when `find` returns `npos` (no colon),
otherwise `some` of the suffix after the first colon.
-/
def splitAfterColon (s : String) : Option String :=
  (splitAfterColonChars s.data).map String.mk

/--
Response of `getConnectedSSID`.  `ssid` is `some` of the string stored
in `response["ssid"]` when that assignment runs, `none` when the key is
never set; the remaining fields are always assigned.
-/
structure SSIDResponse where
  success : Bool
  ssid : Option String
  bssid : String
  rate : String
  noise : String
  security : String
  signalStrength : String
  frequency : String
deriving DecidableEq, Repr

/--
`WifiManagerState::getConnectedSSID`
(`src/unnamed/part_000`, lines 98-135).  `wifiInterface` stands for the
value of `getWifiInterfaceName()`.  When the interface is non-empty the
handler queries the `"netid"` parameter afresh and, if it contains a
colon, stores the suffix after the first colon as `ssid` and succeeds;
every other path fails.  The placeholder fields are set to `""` on all
paths and the C++ function returns `Core::ERROR_NONE` on all paths.
-/
def getConnectedSSID (env : DBusEnv) (wifiInterface : String) : SSIDResponse :=
  let core : Bool × Option String :=
    if wifiInterface = "" then (false, none)
    else
      match env.getParam wifiInterface "netid" with
      | some netid =>
        match splitAfterColon netid with
        | some s => (true, some s)
        | none => (false, none)
      | none => (false, none)
  { success := core.1, ssid := core.2, bssid := "", rate := "", noise := "",
    security := "", signalStrength := "", frequency := "" }

/--
`WifiManagerState::setEnabled`
(`src/unnamed/part_000`, lines 163-167): not implemented, always fails.
-/
def setEnabled : Bool := false

/--
`WifiManagerState::getSupportedSecurityModes`
(`src/unnamed/part_000`, lines 169-173): not implemented, always fails.
-/
def getSupportedSecurityModes : Bool := false

/-- The predicate the interface scan looks for: the `"type"` parameter
query succeeds and yields exactly `"wifi"`. -/
def isWifiIface (env : DBusEnv) (i : String) : Prop :=
  env.getParam i "type" = some "wifi"

instance (env : DBusEnv) (i : String) : Decidable (isWifiIface env i) :=
  inferInstanceAs (Decidable (env.getParam i "type" = some "wifi"))

/--
A sequence of `getWifiInterfaceName()` calls, each possibly observing a
different environment, threading the memoization cache; returns the
list of `(returned string, fetch invoked)` pairs and the final cache.
-/
def runGetName : List DBusEnv → Option String → List (String × Bool) × Option String
  | [], cache => ([], cache)
  | env :: rest, cache =>
    let r := getWifiInterfaceName env cache
    let rr := runGetName rest r.2.1
    ((r.1, r.2.2) :: rr.1, rr.2)

/-- A concrete environment with no wifi-capable interface: every query
fails. -/
def envNoWifi : DBusEnv :=
  { getStatus := fun _ => none,
    getParam := fun _ _ => none,
    getInterfaces := none }

/-- A concrete environment with an ethernet interface followed by a
wifi interface. -/
def envTwoIfaces : DBusEnv :=
  { getStatus := fun _ => none,
    getParam := fun i k =>
      if i = "eth0" ∧ k = "type" then some "ethernet"
      else if i = "wlan0" ∧ k = "type" then some "wifi"
      else none,
    getInterfaces := some ["eth0", "wlan0"] }

/-- A concrete environment where a wifi interface resolves but its
status query fails. -/
def envStatusFails : DBusEnv :=
  { getStatus := fun _ => none,
    getParam := fun i k => if i = "wlan0" ∧ k = "type" then some "wifi" else none,
    getInterfaces := some ["wlan0"] }

/-- A concrete environment where the wifi interface reports a netid
with a colon. -/
def envWithNetid : DBusEnv :=
  { getStatus := fun _ => none,
    getParam := fun i k =>
      if i = "wlan0" ∧ k = "type" then some "wifi"
      else if i = "wlan0" ∧ k = "netid" then some "id0:HomeNet"
      else none,
    getInterfaces := some ["wlan0"] }

end WPEFrameworkPlugin

namespace HdcpProfile

/--
Modelled from the spec: the HDCP-side logical state vocabulary.  The
implementation of the HDCP bridge is not among the provided sources
(only the class declaration `src/HdcpProfile/HdcpProfile.h`); spec §3
requires at least one terminal authenticated/secure variant and one
unauthenticated/not-secure variant.
-/
inductive HdcpLogicalState where
  | UNPOWERED
  | UNAUTHENTICATED
  | AUTHENTICATED
deriving DecidableEq, Repr

/--
Modelled from the spec: the HDCP bridge snapshot — the current logical
state plus the auxiliary "HDMI connected" boolean (spec §3: "Snapshot —
current LogicalState (+ for HDCP, auxiliary booleans such as HDMI
connected)").  `lastRawStatus` is the last raw HDCP status code
delivered by `onHdmiOutputHDCPStatusEvent(int)` (raw vendor codes are
opaque integers).
-/
structure HdcpSnapshot where
  hdmiConnected : Bool
  lastRawStatus : Nat
deriving DecidableEq, Repr

/--
Modelled from the spec: `HdcpProfile::onHdmiOutputHDCPStatusEvent(int)`
(declared in `src/HdcpProfile/HdcpProfile.h`, line 62; body not in the
sources) records the incoming raw HDCP status event.
-/
def onHdmiOutputHDCPStatusEvent (st : HdcpSnapshot) (raw : Nat) : HdcpSnapshot :=
  { st with lastRawStatus := raw }

/--
Modelled from the spec: `HdcpProfile::onHdmiOutputHotPlug(int)`
(declared in `src/HdcpProfile/HdcpProfile.h`, line 61; body not in the
sources) records the hot-plug connection state; `connected` is whether
the `connectStatus` argument equals the "connected" event code.
-/
def onHdmiOutputHotPlug (st : HdcpSnapshot) (connected : Bool) : HdcpSnapshot :=
  { st with hdmiConnected := connected }

/--
Modelled from the spec: the reported HDCP status (spec §4.2: "HDCP
status is only meaningful/reportable while hot-plug is in the connected
state; on disconnect, the HDCP status is treated as
unauthenticated/not-secure regardless of the last reported raw HDCP
event").  `rawMap` is the vendor raw-code-to-logical-state mapping,
left abstract since the sources do not provide it.
-/
def reportedHdcpStatus (rawMap : Nat → HdcpLogicalState) (st : HdcpSnapshot) :
    HdcpLogicalState :=
  if st.hdmiConnected then rawMap st.lastRawStatus else .UNAUTHENTICATED

end HdcpProfile

namespace WPEFrameworkPlugin

open WifiManagerImpl

/-- Constructor-level characterization of the `std::map` lookup. -/
theorem statusToStateFind_eq (s : InterfaceStatus) :
    statusToStateFind s = match s with
      | .Disabled => some .DISABLED
      | .Disconnected => some .DISCONNECTED
      | .Associating => some .CONNECTING
      | .Dormant => some .DISCONNECTED
      | .Binding => some .CONNECTING
      | .Assigned => some .CONNECTED
      | .Scanning => some .CONNECTING
      | .otherRaw _ => none := by
  cases s <;> rfl

/-- Unfolding equation for `updateWifiStatus`: the stored snapshot and
the notification depend only on the incoming raw status. -/
theorem updateWifiStatus_eq (st : WifiMgrState) (status : InterfaceStatus) :
    updateWifiStatus st status =
      ({ m_wifi_status := status },
       match statusToStateFind status with
       | some w => [(w, false)]
       | none => []) := by
  cases st
  cases h : statusToStateFind status <;> simp [updateWifiStatus, h]

/--
Claim C2: the mapping table maps Disabled to DISABLED, Disconnected to
DISCONNECTED, Associating to CONNECTING, Dormant to DISCONNECTED,
Binding to CONNECTING, Assigned to CONNECTED, Scanning to CONNECTING,
any raw status outside those seven to nothing, and its key set is
exactly those seven entries.
-/
theorem statusToState_table :
    statusToStateFind .Disabled = some .DISABLED ∧
    statusToStateFind .Disconnected = some .DISCONNECTED ∧
    statusToStateFind .Associating = some .CONNECTING ∧
    statusToStateFind .Dormant = some .DISCONNECTED ∧
    statusToStateFind .Binding = some .CONNECTING ∧
    statusToStateFind .Assigned = some .CONNECTED ∧
    statusToStateFind .Scanning = some .CONNECTING ∧
    (∀ n : Nat, statusToStateFind (.otherRaw n) = none) ∧
    statusToState.map Prod.fst =
      [.Disabled, .Disconnected, .Associating, .Dormant, .Binding,
       .Assigned, .Scanning] :=
  ⟨rfl, rfl, rfl, rfl, rfl, rfl, rfl, fun _ => rfl, rfl⟩

/--
Claim C4: when the current snapshot status is in the mapping table,
`getCurrentState` answers success with the mapped state's integer
value; when it is outside the table, it answers failure; both paths
return a well-formed response (the embedding is a total function).
-/
theorem getCurrentState_spec (s : InterfaceStatus) :
    (∀ w, statusToStateFind s = some w →
      getCurrentState s = { success := true, state := some w.toInt }) ∧
    (statusToStateFind s = none →
      getCurrentState s = { success := false, state := none }) := by
  constructor
  · intro w hw
    simp [getCurrentState, hw]
  · intro h
    simp [getCurrentState, h]

/-- Witness for C4: both branches exercised at concrete statuses. -/
theorem getCurrentState_spec_witness :
    getCurrentState .Assigned = { success := true, state := some 5 } ∧
    getCurrentState (.otherRaw 42) = { success := false, state := none } :=
  ⟨(getCurrentState_spec .Assigned).1 .CONNECTED rfl,
   (getCurrentState_spec (.otherRaw 42)).2 rfl⟩

/--
Claim C1 (counterexample): `updateWifiStatus` notifies on every raw
status that is in the mapping table, without comparing against the
previous snapshot.  From a `Disconnected` snapshot, feeding `Assigned`
twice emits two `onWIFIStateChanged(CONNECTED, false)` calls, not one;
feeding `Associating`, `Scanning`, `Binding` emits three
`onWIFIStateChanged(CONNECTING, false)` calls, not one.
-/
theorem updateWifiStatus_dup_cex :
    (feedStatuses { m_wifi_status := .Disconnected } [.Assigned, .Assigned]).2 =
      [(.CONNECTED, false), (.CONNECTED, false)] ∧
    (feedStatuses { m_wifi_status := .Disconnected }
        [.Associating, .Scanning, .Binding]).2 =
      [(.CONNECTING, false), (.CONNECTING, false), (.CONNECTING, false)] :=
  ⟨rfl, rfl⟩

/--
Claim C1 (amended): a notification fires if and only if the incoming
raw status is in the mapping table, regardless of the previous snapshot
value; over any sequence of raw statuses the emitted notifications are
exactly one `(mapped state, false)` per mapped status, in order — in
particular repeated identical raw statuses notify once each.
-/
theorem updateWifiStatus_notifications (st : WifiMgrState)
    (statuses : List InterfaceStatus) :
    (feedStatuses st statuses).2 =
      statuses.filterMap
        (fun s => (statusToStateFind s).map (fun w => (w, false))) := by
  induction statuses generalizing st with
  | nil => rfl
  | cons s rest ih =>
    cases h : statusToStateFind s with
    | some w =>
      simp [feedStatuses, updateWifiStatus_eq, h, List.filterMap_cons, ih]
    | none =>
      simp [feedStatuses, updateWifiStatus_eq, h, List.filterMap_cons, ih]

/--
Claim C9: a status-change event for any interface other than the
resolved wifi interface leaves the snapshot unchanged and emits no
notification; contrapositively, only events naming the resolved wifi
interface can modify the snapshot.
-/
theorem statusChanged_frame (wifiName : String) (st : WifiMgrState)
    (interface : String) (status : InterfaceStatus) :
    (interface ≠ wifiName →
      statusChanged wifiName st interface status = (st, [])) ∧
    ((statusChanged wifiName st interface status).1 ≠ st →
      interface = wifiName) := by
  constructor
  · intro h
    simp [statusChanged, h]
  · intro h
    by_contra hne
    exact h (by simp [statusChanged, hne])

/-- Witness for C9: an `eth0` event against a resolved `wlan0` is a
no-op. -/
theorem statusChanged_frame_witness :
    statusChanged "wlan0" { m_wifi_status := .Disconnected } "eth0" .Assigned =
      ({ m_wifi_status := .Disconnected }, []) :=
  (statusChanged_frame "wlan0" { m_wifi_status := .Disconnected }
    "eth0" .Assigned).1 (by decide)

/-- The interface scan returns `""` when no listed interface satisfies
the wifi predicate. -/
theorem findWifiInterface_eq_empty (env : DBusEnv) (l : List String)
    (h : ∀ i ∈ l, ¬ isWifiIface env i) : findWifiInterface env l = "" := by
  induction l with
  | nil => rfl
  | cons a rest ih =>
    have ha : ¬ isWifiIface env a := h a (by simp)
    have hrest : ∀ i ∈ rest, ¬ isWifiIface env i :=
      fun i hi => h i (by simp [hi])
    cases hp : env.getParam a "type" with
    | none => simp [findWifiInterface, hp, ih hrest]
    | some t =>
      have ht : ¬ (t = "wifi") := by
        intro ht
        exact ha (by simp [isWifiIface, hp, ht])
      simp [findWifiInterface, hp, ht, ih hrest]

/-- The interface scan returns the first listed interface satisfying
the wifi predicate. -/
theorem findWifiInterface_first (env : DBusEnv) (l : List String) (j : Nat)
    (hj : j < l.length) (hw : isWifiIface env (l.get ⟨j, hj⟩))
    (hmin : ∀ k (hk : k < l.length), k < j →
      ¬ isWifiIface env (l.get ⟨k, hk⟩)) :
    findWifiInterface env l = l.get ⟨j, hj⟩ := by
  induction l generalizing j with
  | nil => exact absurd hj (Nat.not_lt_zero j)
  | cons a rest ih =>
    cases j with
    | zero =>
      have hw0 : env.getParam a "type" = some "wifi" := hw
      simp [findWifiInterface, hw0]
    | succ j =>
      have ha : ¬ isWifiIface env a :=
        hmin 0 (Nat.succ_pos rest.length) (Nat.succ_pos j)
      have hj2 : j < rest.length := Nat.lt_of_succ_lt_succ hj
      have hw2 : isWifiIface env (rest.get ⟨j, hj2⟩) := hw
      have hmin2 : ∀ k (hk : k < rest.length), k < j →
          ¬ isWifiIface env (rest.get ⟨k, hk⟩) :=
        fun k hk hkj =>
          hmin (k + 1) (Nat.succ_lt_succ hk) (Nat.succ_lt_succ hkj)
      cases hp : env.getParam a "type" with
      | none =>
        simpa [findWifiInterface, hp] using ih j hj2 hw2 hmin2
      | some t =>
        have ht : ¬ (t = "wifi") := by
          intro ht
          exact ha (by simp [isWifiIface, hp, ht])
        simpa [findWifiInterface, hp, ht] using ih j hj2 hw2 hmin2

/--
Claim C6: `fetchWifiInterfaceName` returns the first interface, in
listing order, whose type query succeeds with exactly `"wifi"`; when
the listing fails or no interface qualifies it returns `""` (and, being
a total function, does not crash).
-/
theorem fetchWifiInterfaceName_spec (env : DBusEnv) :
    (env.getInterfaces = none → fetchWifiInterfaceName env = "") ∧
    (∀ l, env.getInterfaces = some l →
      ((∀ i ∈ l, ¬ isWifiIface env i) → fetchWifiInterfaceName env = "") ∧
      (∀ j (hj : j < l.length), isWifiIface env (l.get ⟨j, hj⟩) →
        (∀ k (hk : k < l.length), k < j →
          ¬ isWifiIface env (l.get ⟨k, hk⟩)) →
        fetchWifiInterfaceName env = l.get ⟨j, hj⟩)) := by
  refine ⟨fun h => by simp [fetchWifiInterfaceName, h], fun l hl => ⟨?_, ?_⟩⟩
  · intro h
    simp [fetchWifiInterfaceName, hl, findWifiInterface_eq_empty env l h]
  · intro j hj hw hmin
    simp [fetchWifiInterfaceName, hl, findWifiInterface_first env l j hj hw hmin]

/-- Witness for C6: in `envTwoIfaces` the ethernet interface is skipped
and the wifi interface at index 1 is returned. -/
theorem fetchWifiInterfaceName_spec_witness :
    fetchWifiInterfaceName envTwoIfaces = "wlan0" :=
  ((fetchWifiInterfaceName_spec envTwoIfaces).2 ["eth0", "wlan0"] rfl).2
    1 (by decide) (by decide) (by decide)

/-- After the cache is populated, every call returns the cached name
without fetching, and the cache is stable. -/
theorem runGetName_cached (envs : List DBusEnv) (name : String) :
    runGetName envs (some name) =
      (envs.map (fun _ => (name, false)), some name) := by
  induction envs with
  | nil => rfl
  | cons e rest ih => simp [runGetName, getWifiInterfaceName, ih]

/--
Claim C7: the first `getWifiInterfaceName` call invokes
`fetchWifiInterfaceName` and returns its result; every subsequent call,
under arbitrary later environments, returns that identical string
without invoking the fetch again.
-/
theorem getWifiInterfaceName_memoized (env0 : DBusEnv) (envs : List DBusEnv) :
    (getWifiInterfaceName env0 none).1 = fetchWifiInterfaceName env0 ∧
    (getWifiInterfaceName env0 none).2.2 = true ∧
    (runGetName envs (getWifiInterfaceName env0 none).2.1).1 =
      envs.map (fun _ => (fetchWifiInterfaceName env0, false)) := by
  refine ⟨rfl, rfl, ?_⟩
  show (runGetName envs (some (fetchWifiInterfaceName env0))).1 = _
  simp [runGetName_cached]

/-- Both branches of `getWifiInterfaceName` return a populated cache
holding exactly the returned string. -/
theorem getWifiInterfaceName_cache_some (env : DBusEnv) (cache : Option String) :
    (getWifiInterfaceName env cache).2.1 =
      some (getWifiInterfaceName env cache).1 := by
  cases cache <;> rfl

/--
Claim C5: when the resolved wifi interface name is empty, or the seed
status query for it fails, `Initialize` leaves the snapshot unchanged,
emits no notification, logs a warning, and returns normally.
-/
theorem Initialize_error_atomic (env : DBusEnv) (st : WifiMgrState)
    (cache : Option String)
    (h : (getWifiInterfaceName env cache).1 = "" ∨
         ((getWifiInterfaceName env cache).1 ≠ "" ∧
          env.getStatus (getWifiInterfaceName env cache).1 = none)) :
    (Initialize env st cache).state = st ∧
    (Initialize env st cache).notifs = [] ∧
    (Initialize env st cache).warnings ≠ [] := by
  rcases h with h | ⟨hne, hst⟩
  · simp [Initialize, h]
  · have hr : getWifiInterfaceName env (getWifiInterfaceName env cache).2.1 =
        ((getWifiInterfaceName env cache).1,
         some (getWifiInterfaceName env cache).1, false) := by
      rw [getWifiInterfaceName_cache_some]
      rfl
    simp [Initialize, hne, hr, hst]

/-- Witness for C5: in `envStatusFails` the interface resolves to
`wlan0` but its status query fails; the snapshot survives untouched. -/
theorem Initialize_error_atomic_witness :
    (Initialize envStatusFails { m_wifi_status := .Disconnected } none).state =
      { m_wifi_status := .Disconnected } ∧
    (Initialize envStatusFails { m_wifi_status := .Disconnected } none).notifs = [] ∧
    (Initialize envStatusFails { m_wifi_status := .Disconnected } none).warnings ≠ [] :=
  Initialize_error_atomic envStatusFails { m_wifi_status := .Disconnected } none
    (Or.inr ⟨by decide, rfl⟩)

/--
Claim C3 (counterexample): in an environment with no wifi-capable
interface the resolved name is empty and `getConnectedSSID` indeed
fails without a fault, but the handler never assigns the `ssid`
response field — the field is absent, not set to the empty string.
-/
theorem getConnectedSSID_no_iface_cex :
    fetchWifiInterfaceName envNoWifi = "" ∧
    (getConnectedSSID envNoWifi "").success = false ∧
    (getConnectedSSID envNoWifi "").ssid ≠ some "" ∧
    (getConnectedSSID envNoWifi "").ssid = none := by
  refine ⟨rfl, rfl, ?_, rfl⟩
  decide

/--
Claim C3 (amended): when no wifi interface was resolved at startup (the
cached name is empty), `getConnectedSSID` returns success=false, never
sets the ssid field, sets the fields bssid, rate, noise, security,
signalStrength and frequency to empty strings, and returns normally
without raising any fault.
-/
theorem getConnectedSSID_no_iface (env : DBusEnv) :
    getConnectedSSID env "" =
      { success := false, ssid := none, bssid := "", rate := "", noise := "",
        security := "", signalStrength := "", frequency := "" } := rfl

/-- When the colon scan fails, the string has no colon. -/
theorem splitAfterColonChars_none : ∀ l : List Char,
    splitAfterColonChars l = none → ':' ∉ l := by
  intro l
  induction l with
  | nil =>
    intro _ hm
    cases hm
  | cons c rest ih =>
    intro h hm
    by_cases hc : c = ':'
    · rw [hc] at h
      simp [splitAfterColonChars] at h
    · simp only [splitAfterColonChars, if_neg hc] at h
      rcases List.mem_cons.mp hm with h1 | h1
      · exact hc h1.symm
      · exact ih h h1

/-- When the colon scan succeeds, the result is the suffix after the
first colon: the prefix before it is colon-free. -/
theorem splitAfterColonChars_some : ∀ l rest : List Char,
    splitAfterColonChars l = some rest →
    ∃ pre, l = pre ++ ':' :: rest ∧ ':' ∉ pre := by
  intro l
  induction l with
  | nil =>
    intro rest h
    cases h
  | cons c tl ih =>
    intro rest h
    by_cases hc : c = ':'
    · subst hc
      have h2 : some tl = some rest := by simpa [splitAfterColonChars] using h
      injection h2 with h2
      subst h2
      exact ⟨[], rfl, by simp⟩
    · simp only [splitAfterColonChars, if_neg hc] at h
      obtain ⟨pre, hpre, hnc⟩ := ih rest h
      refine ⟨c :: pre, by simp [hpre], ?_⟩
      intro hm
      rcases List.mem_cons.mp hm with h1 | h1
      · exact hc h1.symm
      · exact hnc h1

/--
Claim C10: `getConnectedSSID` succeeds exactly when the resolved
interface is non-empty, the netid query succeeds, and the netid
contains a colon; in that case the ssid field is the suffix of netid
after the first colon; when netid has no colon the handler fails and
the ssid field stays unset although the query succeeded.
-/
theorem getConnectedSSID_spec (env : DBusEnv) (iface : String) :
    ((getConnectedSSID env iface).success = true ↔
      iface ≠ "" ∧ ∃ netid, env.getParam iface "netid" = some netid ∧
        ':' ∈ netid.data) ∧
    (∀ netid, iface ≠ "" → env.getParam iface "netid" = some netid →
      ((':' ∉ netid.data →
        (getConnectedSSID env iface).success = false ∧
        (getConnectedSSID env iface).ssid = none) ∧
       (∀ t, (getConnectedSSID env iface).ssid = some t →
        ∃ pre, netid.data = pre ++ ':' :: t.data ∧ ':' ∉ pre))) := by
  by_cases hif : iface = ""
  · subst hif
    exact ⟨by simp [getConnectedSSID], fun netid hne _ => absurd rfl hne⟩
  · cases hp : env.getParam iface "netid" with
    | none =>
      constructor
      · constructor
        · intro hs
          exfalso
          simp [getConnectedSSID, hif, hp] at hs
        · rintro ⟨-, netid, hq, -⟩
          exact Option.noConfusion hq
      · intro netid hne hq
        exact Option.noConfusion hq
    | some netid0 =>
      cases hs : splitAfterColonChars netid0.data with
      | none =>
        have hnc : ':' ∉ netid0.data := splitAfterColonChars_none _ hs
        have hsucc : (getConnectedSSID env iface).success = false := by
          simp [getConnectedSSID, splitAfterColon, hif, hp, hs]
        have hssid : (getConnectedSSID env iface).ssid = none := by
          simp [getConnectedSSID, splitAfterColon, hif, hp, hs]
        constructor
        · rw [hsucc]
          constructor
          · intro h
            cases h
          · rintro ⟨-, netid, hq, hcn⟩
            injection hq with hq
            subst hq
            exact absurd hcn hnc
        · intro netid hne hq
          injection hq with hq
          subst hq
          constructor
          · intro _
            exact ⟨hsucc, hssid⟩
          · intro t ht
            rw [hssid] at ht
            cases ht
      | some rest =>
        have hsucc : (getConnectedSSID env iface).success = true := by
          simp [getConnectedSSID, splitAfterColon, hif, hp, hs]
        have hssid : (getConnectedSSID env iface).ssid = some (String.mk rest) := by
          simp [getConnectedSSID, splitAfterColon, hif, hp, hs]
        obtain ⟨pre, hpre, hnp⟩ := splitAfterColonChars_some _ _ hs
        have hmem : ':' ∈ netid0.data := by
          rw [hpre]
          simp
        constructor
        · rw [hsucc]
          constructor
          · intro _
            exact ⟨hif, netid0, rfl, hmem⟩
          · intro _
            rfl
        · intro netid hne hq
          injection hq with hq
          subst hq
          constructor
          · intro hno
            exact absurd hmem hno
          · intro t ht
            rw [hssid] at ht
            injection ht with ht
            subst ht
            exact ⟨pre, hpre, hnp⟩

/-- Witness for C10: in `envWithNetid` the netid `id0:HomeNet` yields a
successful response whose ssid is the suffix after the colon. -/
theorem getConnectedSSID_spec_witness :
    (getConnectedSSID envWithNetid "wlan0").success = true ∧
    ∃ pre, ("id0:HomeNet").data = pre ++ ':' :: ("HomeNet").data ∧ ':' ∉ pre := by
  constructor
  · exact (getConnectedSSID_spec envWithNetid "wlan0").1.mpr
      ⟨by decide, "id0:HomeNet", by decide, by decide⟩
  · exact ((getConnectedSSID_spec envWithNetid "wlan0").2 "id0:HomeNet"
      (by decide) (by decide)).2 "HomeNet" (by decide)

end WPEFrameworkPlugin

namespace HdcpProfile

/--
Claim C8: a hot-unplug event forces the reported HDCP status to the
unauthenticated/not-secure variant, whatever raw HDCP status event was
recorded last before the unplug and whatever the vendor raw-status
mapping is.
-/
theorem hotUnplug_forces_unauthenticated (rawMap : Nat → HdcpLogicalState)
    (st : HdcpSnapshot) (raw : Nat) :
    reportedHdcpStatus rawMap
        (onHdmiOutputHotPlug (onHdmiOutputHDCPStatusEvent st raw) false) =
      .UNAUTHENTICATED ∧
    reportedHdcpStatus rawMap (onHdmiOutputHotPlug st false) =
      .UNAUTHENTICATED :=
  ⟨rfl, rfl⟩

end HdcpProfile
